import Mathlib

/-!
Verification development for the browser voice-agent session engine.

The definitions below are a shallow embedding of the JavaScript sources:
`BrowserVoiceHandler` (conversation context, WAV container framing, audio
buffering / VAD dispatch, and the `callLLM` dialog turn with its tool-call
recursion) and `ToolExecutionService` (data extraction and tool execution).

External collaborators (the LLM provider, `JSON.parse`, the network, the
Google Sheets client) are modelled as explicit oracle parameters: a list of
provider replies consumed one per call, an abstract parse function, and
abstract request outcomes.  JavaScript exceptions are modelled by `Option` /
`Except` values; JavaScript truthiness is modelled by `jsTruthy`.
-/

/-- A JSON value, as produced by `JSON.parse`.  Numbers are modelled as
integers (no claim below depends on fractional values). -/
inductive Json where
  | null
  | bool (b : Bool)
  | num (n : Int)
  | str (s : String)
  | arr (elems : List Json)
  | obj (fields : List (String × Json))

/-- JavaScript truthiness of a value: `null`, `false`, `0` and `""` are
falsy; every array or object is truthy. -/
def jsTruthy : Json → Bool
  | Json.null => false
  | Json.bool b => b
  | Json.num n => !(n == 0)
  | Json.str s => !(s == "")
  | Json.arr _ => true
  | Json.obj _ => true

/-- Truthiness of a possibly-absent value (`undefined` is falsy). -/
def jsTruthyOpt : Option Json → Bool
  | none => false
  | some v => jsTruthy v

/-- Member access `j[key]` on a JSON value: a field lookup on objects,
`undefined` (here `none`) on everything else. -/
def jsGet (j : Json) (key : String) : Option Json :=
  match j with
  | Json.obj kvs => (kvs.find? (fun kv => kv.1 == key)).map (fun kv => kv.2)
  | _ => none

/-- String escaping used by `JSON.stringify` for quote and backslash (the
only escapes the strings in this development can need). -/
def escapeJsonChar (c : Char) : String :=
  if c == '"' then "\\\""
  else if c == '\\' then "\\\\"
  else String.singleton c

/-- A JSON string literal as produced by `JSON.stringify`. -/
def quoteJson (s : String) : String :=
  "\"" ++ String.join (s.data.map escapeJsonChar) ++ "\""

mutual

/-- Model of `JSON.stringify` (compact form, no added whitespace). -/
def stringify : Json → String
  | Json.null => "null"
  | Json.bool true => "true"
  | Json.bool false => "false"
  | Json.num n => toString n
  | Json.str s => quoteJson s
  | Json.arr vs => "[" ++ stringifyArray vs ++ "]"
  | Json.obj kvs => "\x7b" ++ stringifyObject kvs ++ "\x7d"

/-- Comma-separated serialization of array elements. -/
def stringifyArray : List Json → String
  | [] => ""
  | [v] => stringify v
  | v :: vs => stringify v ++ "," ++ stringifyArray vs

/-- Comma-separated serialization of object members. -/
def stringifyObject : List (String × Json) → String
  | [] => ""
  | [(k, v)] => quoteJson k ++ ":" ++ stringify v
  | (k, v) :: kvs => quoteJson k ++ ":" ++ stringify v ++ "," ++ stringifyObject kvs

end

/-- One declared tool parameter: `{name, type, required}`. -/
structure Param where
  name : String
  type : String
  required : Bool
deriving DecidableEq

/-- A declared tool, as stored in the agent configuration and embedded in
`session.tools`: name, description, type (`"GoogleSheets"` or `"Webhook"`),
parameter list, target URL, HTTP method, header list (key/value pairs), and
the flag selecting after-call execution.  Absent (`undefined`) string fields
are `none`. -/
structure Tool where
  name : String
  description : String
  type : String
  parameters : List Param
  webhookUrl : Option String
  method : Option String
  headers : List (String × String)
  runAfterCall : Bool
deriving DecidableEq

/-- One conversation turn `{role, content, timestamp}` as pushed by
`appendToContext`. -/
structure Turn where
  role : String
  content : String
  timestamp : Nat
deriving DecidableEq

/-- Embedding of `appendToContext(session, content, role)`: push the new
turn, then keep only the last 20 entries (`slice(-20)`). -/
def appendToContext (hist : List Turn) (content role : String) (ts : Nat) : List Turn :=
  let h := hist ++ [{ role := role, content := content, timestamp := ts }]
  if h.length > 20 then h.drop (h.length - 20) else h

/-- Replace every non-overlapping occurrence of the pattern `p :: ps` by
`rep`, scanning left to right — the semantics of the JavaScript global
literal-pattern `String.replace` used in `callLLM`.  The `fuel` argument
only makes the recursion structural; every occurrence match consumes at
least one character, so `fuel = s.length` always suffices. -/
def replaceAux (p : Char) (ps rep : List Char) : Nat → List Char → List Char
  | _, [] => []
  | 0, s => s
  | fuel + 1, c :: cs =>
    if (p :: ps).isPrefixOf (c :: cs) then rep ++ replaceAux p ps rep fuel (cs.drop ps.length)
    else c :: replaceAux p ps rep fuel cs

/-- Global replacement of a literal pattern in a string, as in the source's
`text.replace(/pattern/g, replacement)`. -/
def replaceAllStr (s pat rep : String) : String :=
  match pat.data with
  | [] => s
  | p :: ps => String.mk (replaceAux p ps rep.data s.data.length s.data)

/-- Whitespace trimming from both ends (JavaScript `String.prototype.trim`). -/
def trimStr (s : String) : String :=
  String.mk (((s.data.dropWhile Char.isWhitespace).reverse.dropWhile Char.isWhitespace).reverse)

/-- The cleaning step of the tool-call detection in `callLLM`: strip
markdown code-fence markers, then trim whitespace. -/
def cleanLLMText (text : String) : String :=
  trimStr (replaceAllStr (replaceAllStr text "```json" "") "```" "")

/-- First character test, the source's `cleanText.startsWith('{')`. -/
def strStartsWithChar (s : String) (c : Char) : Bool :=
  match s.data with
  | [] => false
  | c0 :: _ => c0 == c

/-- Last character test, the source's `cleanText.endsWith('}')`. -/
def strEndsWithChar (s : String) (c : Char) : Bool :=
  match s.data.getLast? with
  | none => false
  | some c0 => c0 == c

/-- The opening-brace character, written via its code point. -/
def lbrace : Char := Char.ofNat 123

/-- The closing-brace character, written via its code point. -/
def rbrace : Char := Char.ofNat 125

/-- The tool-call detection of `callLLM`: clean the reply text; if it starts
with a brace and ends with a brace, `JSON.parse` it (the abstract `parse`
oracle, `none` modelling a thrown parse error, which the source catches);
the parsed value is a candidate tool call when both `parsed.tool` and
`parsed.data` are truthy. -/
def detectToolJson (parse : String → Option Json) (text : String) : Option Json :=
  let clean := cleanLLMText text
  if strStartsWithChar clean lbrace && strEndsWithChar clean rbrace then
    match parse clean with
    | none => none
    | some parsed =>
      if jsTruthyOpt (jsGet parsed "tool") && jsTruthyOpt (jsGet parsed "data") then some parsed
      else none
  else none

/-- The source's `session.tools.find(t => t.name === parsed.tool)`: strict
equality of the tool name with the parsed `tool` field. -/
def findTool (tools : List Tool) (toolField : Json) : Option Tool :=
  tools.find? (fun t =>
    match toolField with
    | Json.str s => t.name == s
    | _ => false)

/-- The synthetic status turn content appended after a tool execution:
`JSON.stringify({tool: parsed.tool, status: "success", message: "Data
processing initiated"})`. -/
def toolStatusMessage (toolField : Json) : String :=
  stringify (Json.obj
    [("tool", toolField), ("status", Json.str "success"),
     ("message", Json.str "Data processing initiated")])

/-- A successful reply of the LLM provider: the reply text and the reported
token counts. -/
structure LLMResult where
  text : String
  inputTokens : Nat
  outputTokens : Nat
deriving DecidableEq

/-- The observable outcome of one `callLLM` invocation: the returned reply
text, the conversation history after the call, the token-counter increments,
the tool executions performed (tool name and `data` argument, in order), the
inputs of the recursive follow-up calls, and the number of LLM provider
invocations made. -/
structure CallOutcome where
  reply : String
  history : List Turn
  inputTokens : Nat
  outputTokens : Nat
  toolExecs : List (String × Json)
  followupInputs : List String
  llmAttempts : Nat

/-- Outcome of a `callLLM` invocation whose provider call failed: the fixed
apology is returned and nothing else happens (outer catch, lines 497-500). -/
def llmFailure (hist : List Turn) : CallOutcome :=
  { reply := "I apologize, but I'm having trouble processing your request right now."
    history := hist
    inputTokens := 0
    outputTokens := 0
    toolExecs := []
    followupInputs := []
    llmAttempts := 1 }

/-- The fixed apology text of the outer catch in `callLLM`. -/
def apologyMessage : String :=
  "I apologize, but I'm having trouble processing your request right now."

/-- The fixed input of the recursive follow-up call after a tool execution. -/
def followupPrompt : String := "Tool executed successfully. Please continue."

/-- Embedding of `callLLM(session, userInput)`.  The provider is an oracle
list of replies consumed one per invocation (`none` models a thrown provider
error; an exhausted oracle likewise models a failing provider).  `hasPool`
is the truthiness of `this.mysqlPool`; `parse` models `JSON.parse`; `ts`
models `Date.now()` for appended turns.  On a reply: accumulate token
counts; run the tool-call detection; if a candidate tool call was detected
and a database pool is configured and the named tool is found in the
session's tool list, execute the tool, append the synthetic user-role status
turn, and recurse with the fixed follow-up prompt, returning the recursive
result; in every other case return the reply text unchanged.  (`userInput`
is never read by the source function, so it is omitted here; the inputs
passed to recursive calls are recorded in `followupInputs`.) -/
def callLLM (hasPool : Bool) (tools : List Tool) (parse : String → Option Json)
    (ts : Nat) : List (Option LLMResult) → List Turn → CallOutcome
  | [], hist => llmFailure hist
  | none :: _, hist => llmFailure hist
  | some r :: rest, hist =>
    let base : CallOutcome :=
      { reply := r.text
        history := hist
        inputTokens := r.inputTokens
        outputTokens := r.outputTokens
        toolExecs := []
        followupInputs := []
        llmAttempts := 1 }
    match detectToolJson parse r.text with
    | none => base
    | some parsed =>
      if hasPool then
        match findTool tools ((jsGet parsed "tool").getD Json.null) with
        | some tool =>
          let hist1 := appendToContext hist
            (toolStatusMessage ((jsGet parsed "tool").getD Json.null)) "user" ts
          let recOut := callLLM hasPool tools parse ts rest hist1
          { reply := recOut.reply
            history := recOut.history
            inputTokens := r.inputTokens + recOut.inputTokens
            outputTokens := r.outputTokens + recOut.outputTokens
            toolExecs := (tool.name, (jsGet parsed "data").getD Json.null) :: recOut.toolExecs
            followupInputs := followupPrompt :: recOut.followupInputs
            llmAttempts := 1 + recOut.llmAttempts }
        | none => base
      else base

/-- Little-endian byte pair written by `buffer.writeUInt16LE`. -/
def u16le (v : Nat) : List Nat := [v % 256, v / 256 % 256]

/-- Little-endian byte quadruple written by `buffer.writeUInt32LE`. -/
def u32le (v : Nat) : List Nat :=
  [v % 256, v / 256 % 256, v / 65536 % 256, v / 16777216 % 256]

/-- ASCII bytes written by `buffer.write(s, offset)` for the plain-ASCII
chunk identifiers of the WAV header. -/
def asciiBytes (s : String) : List Nat := s.data.map Char.toNat

/-- Embedding of `createWavHeader(pcmData)`: a 44-byte RIFF/WAVE header
followed by the PCM bytes, with the field values computed exactly as in the
source (mono, 16 kHz, 16-bit). -/
def createWavHeader (pcmData : List Nat) : List Nat :=
  let numChannels := 1
  let sampleRate := 16000
  let bitsPerSample := 16
  let byteRate := sampleRate * numChannels * (bitsPerSample / 8)
  let blockAlign := numChannels * (bitsPerSample / 8)
  let dataSize := pcmData.length
  asciiBytes "RIFF" ++ u32le (36 + dataSize) ++ asciiBytes "WAVE" ++
    asciiBytes "fmt " ++ u32le 16 ++ u16le 1 ++ u16le numChannels ++ u32le sampleRate ++
    u32le byteRate ++ u16le blockAlign ++ u16le bitsPerSample ++
    asciiBytes "data" ++ u32le dataSize ++ pcmData

/-- Little-endian 16-bit read at a byte offset (out-of-range bytes read 0). -/
def readU16LE (bs : List Nat) (off : Nat) : Nat :=
  bs.getD off 0 + 256 * bs.getD (off + 1) 0

/-- Little-endian 32-bit read at a byte offset (out-of-range bytes read 0). -/
def readU32LE (bs : List Nat) (off : Nat) : Nat :=
  bs.getD off 0 + 256 * bs.getD (off + 1) 0 + 65536 * bs.getD (off + 2) 0 +
    16777216 * bs.getD (off + 3) 0

/-- The audio state of a session touched by `processBufferedAudio`: the
list of buffered PCM chunks and whether a silence-timer handle is set
(`session.silenceTimer !== null`). -/
structure AudioState where
  audioBuffer : List (List Nat)
  silenceTimerSet : Bool
deriving DecidableEq

/-- Embedding of `processBufferedAudio(session)`.  Returns the updated
audio state together with the utterance dispatched to the transcription
capability (`none` when transcription is not invoked, hence no transcript
event and no downstream dialog turn).  An empty chunk list returns at once;
otherwise the timer reference is cleared, the chunks are concatenated, the
buffer is cleared, and an utterance shorter than 3200 bytes is dropped. -/
def processBufferedAudio (st : AudioState) : AudioState × Option (List Nat) :=
  if st.audioBuffer.length = 0 then (st, none)
  else
    let complete := st.audioBuffer.flatten
    let st1 : AudioState := { audioBuffer := [], silenceTimerSet := false }
    if complete.length < 3200 then (st1, none) else (st1, some complete)

/-- An HTTP request as assembled by `executeWebhookTool` for `fetch`. -/
structure HttpRequest where
  url : String
  method : String
  headers : List (String × String)
  body : Option String

/-- The source's `tool.method || 'POST'`: an absent or empty (falsy) method
defaults to `POST`. -/
def jsMethod (m : Option String) : String :=
  match m with
  | none => "POST"
  | some s => if s = "" then "POST" else s

/-- One step of the header-object construction: assigning to a key that is
already present overwrites its value in place, otherwise the pair is
appended — JavaScript object-literal / `reduce` assignment semantics. -/
def insertHeader : List (String × String) → String × String → List (String × String)
  | [], kv => [kv]
  | e :: rest, kv =>
    if e.1 == kv.1 then (e.1, kv.2) :: rest else e :: insertHeader rest kv

/-- The header object of `executeWebhookTool`: a JSON content-type entry,
then the tool's configured headers spread over it (later entries overriding
earlier ones, as in the source's object spread of the `reduce` result). -/
def buildWebhookHeaders (toolHeaders : List (String × String)) : List (String × String) :=
  toolHeaders.foldl insertHeader [("Content-Type", "application/json")]

/-- Value of a header key in a header list. -/
def lookupHeader (hs : List (String × String)) (k : String) : Option String :=
  (hs.find? (fun e => e.1 == k)).map (fun e => e.2)

/-- The request `executeWebhookTool` hands to `fetch`: `none` when
`tool.webhookUrl` is falsy (the source throws before any request, and the
catch returns `false`).  The body is `JSON.stringify(data)` exactly when
the method is `POST` (`method === 'POST' ? JSON.stringify(data) :
undefined`). -/
def webhookRequest (tool : Tool) (data : Json) : Option HttpRequest :=
  match tool.webhookUrl with
  | none => none
  | some u =>
    if u = "" then none
    else
      some
        { url := u
          method := jsMethod tool.method
          headers := buildWebhookHeaders tool.headers
          body := if jsMethod tool.method = "POST" then some (stringify data) else none }

/-- Outcome of a `fetch` call: a response with a status code, or a thrown
transport error. -/
inductive FetchOutcome where
  | resp (status : Nat)
  | netError
deriving DecidableEq

/-- Embedding of `executeWebhookTool(tool, data)`: false when the URL is
missing (throw, caught) or the transport fails (throw, caught); otherwise
`response.ok`, i.e. a status in 200..299. -/
def executeWebhookTool (net : FetchOutcome) (tool : Tool) (data : Json) : Bool :=
  match webhookRequest tool data with
  | none => false
  | some _ =>
    match net with
    | FetchOutcome.netError => false
    | FetchOutcome.resp s => decide (200 ≤ s) && decide (s < 300)

/-- Embedding of `executeGoogleSheetsTool(tool, data)`.  `extractId` models
the external `extractSpreadsheetId` collaborator, `sheets` the result of
`appendGenericRow` (`Except.error` a thrown client error, `Except.ok b` a
result whose `success` field is `b`).  A falsy URL or an unresolvable
spreadsheet id throws, is caught, and yields false. -/
def executeGoogleSheetsTool (extractId : String → Option String)
    (sheets : Except Unit Bool) (tool : Tool) : Bool :=
  match tool.webhookUrl with
  | none => false
  | some u =>
    if u = "" then false
    else
      match extractId u with
      | none => false
      | some _ =>
        match sheets with
        | Except.error _ => false
        | Except.ok success => success

/-- Embedding of `executeTool(tool, data)`: `Object.keys(data)` throws on a
null argument before the dispatch (caught by the outer catch, yielding
false); then the switch on `tool.type` dispatches to the Google Sheets or
webhook executor, unsupported types yielding false.  The function is total:
no exception escapes. -/
def executeTool (extractId : String → Option String) (sheets : Except Unit Bool)
    (net : FetchOutcome) (tool : Tool) (data : Json) : Bool :=
  match data with
  | Json.null => false
  | _ =>
    if tool.type == "GoogleSheets" then executeGoogleSheetsTool extractId sheets tool
    else if tool.type == "Webhook" then executeWebhookTool net tool data
    else false

/-- The first brace-delimited block of a string, as matched by the source's
regex `/\{[\s\S]*\}/`: from the first opening brace to the last closing
brace, provided the latter comes later. -/
def findJsonBlock (s : String) : Option String :=
  let cs := s.data
  match cs.findIdx? (fun c => c == lbrace) with
  | none => none
  | some i =>
    match cs.reverse.findIdx? (fun c => c == rbrace) with
    | none => none
    | some jr =>
      let j := cs.length - 1 - jr
      if i < j then some (String.mk ((cs.drop i).take (j - i + 1))) else none

/-- The `extractedData` object of `extractDataFromConversation`: the parsed
first JSON block of the raw LLM response, or the empty object when no block
is found or `JSON.parse` throws. -/
def extractedDataOf (parse : String → Option Json) (response : String) : Json :=
  match findJsonBlock response with
  | none => Json.obj []
  | some block =>
    match parse block with
    | none => Json.obj []
    | some v => v

/-- The `missingFields` list: the names of the declared parameters that are
required and whose extracted value is falsy (`p.required &&
!extractedData[p.name]`), in declaration order. -/
def missingRequired (params : List Param) (extracted : Json) : List String :=
  (params.filter (fun p => p.required && !(jsTruthyOpt (jsGet extracted p.name)))).map
    (fun p => p.name)

/-- Result of `extractDataFromConversation`: the success flag, the
extracted data, and the missing-field names (`none` when the catch branch
returned without a `missingFields` property). -/
structure ExtractResult where
  success : Bool
  data : Json
  missingFields : Option (List String)

/-- Embedding of `extractDataFromConversation(conversationHistory, tool)`.
`chatResp` is the oracle for the extraction LLM call (`Except.error`
modelling a thrown provider error, handled by the catch branch).  On a
response, the first brace-delimited block is parsed (failures yielding the
empty object) and success holds exactly when no required parameter's value
is falsy. -/
def extractDataFromConversation (parse : String → Option Json)
    (chatResp : Except Unit String) (tool : Tool) : ExtractResult :=
  match chatResp with
  | Except.error _ => { success := false, data := Json.obj [], missingFields := none }
  | Except.ok response =>
    let extracted := extractedDataOf parse response
    let missing := missingRequired tool.parameters extracted
    { success := missing.isEmpty, data := extracted, missingFields := some missing }

/-- Embedding of `processToolsDuringCall(session, tools)`: for each tool not
marked `runAfterCall`, in order, run the extraction (`chatOf` being the
per-tool extraction-LLM oracle) and execute the tool only when the
extraction succeeded.  Returns the (tool name, data) pairs executed. -/
def processToolsDuringCall (parse : String → Option Json)
    (chatOf : Tool → Except Unit String) (tools : List Tool) : List (String × Json) :=
  (tools.filter (fun t => !t.runAfterCall)).foldr
    (fun t acc =>
      let extraction := extractDataFromConversation parse (chatOf t) t
      if extraction.success then (t.name, extraction.data) :: acc else acc)
    []

/-- A concrete webhook tool configured with method `PUT`. -/
def putWebhookTool : Tool :=
  { name := "notify", description := "notifies a service", type := "Webhook",
    parameters := [], webhookUrl := some "https://example.com/notify",
    method := some "PUT", headers := [], runAfterCall := false }

/-- A required string parameter named `a`. -/
def requiredAParam : Param := { name := "a", type := "string", required := true }

/-- A concrete tool declaring one required parameter `a`. -/
def collectTool : Tool :=
  { name := "collect", description := "collects a value", type := "Webhook",
    parameters := [requiredAParam], webhookUrl := some "https://example.com/collect",
    method := none, headers := [], runAfterCall := false }

/-- An extraction-LLM response whose field `a` is the empty string. -/
def emptyValueResponse : String := "\x7b\"a\":\"\"\x7d"

/-- A `JSON.parse` oracle agreeing with JavaScript on `emptyValueResponse`. -/
def emptyValueParse : String → Option Json :=
  fun s => if s = emptyValueResponse then some (Json.obj [("a", Json.str "")]) else none

/-- An extraction-LLM response whose field `a` is the string `x`. -/
def filledValueResponse : String := "\x7b\"a\":\"x\"\x7d"

/-- A `JSON.parse` oracle agreeing with JavaScript on `filledValueResponse`. -/
def filledValueParse : String → Option Json :=
  fun s => if s = filledValueResponse then some (Json.obj [("a", Json.str "x")]) else none

/-- An audio state holding one 100-byte chunk with a pending silence timer. -/
def shortAudioState : AudioState :=
  { audioBuffer := [List.replicate 100 0], silenceTimerSet := true }

/-- A spreadsheet-id resolver that never resolves. -/
def noSheetsId : String → Option String := fun _ => none

/-- A concrete tool-call reply text: the model asks to run tool `T` with an
empty data object. -/
def demoToolCallText : String := "\x7b\"tool\":\"T\",\"data\":\x7b\x7d\x7d"

/-- The JSON value `JSON.parse` yields on `demoToolCallText`. -/
def demoToolCallJson : Json := Json.obj [("tool", Json.str "T"), ("data", Json.obj [])]

/-- A concrete `JSON.parse` oracle agreeing with JavaScript on every string
the concrete runs below ever parse. -/
def demoParse : String → Option Json :=
  fun s => if s = demoToolCallText then some demoToolCallJson else none

/-- A concrete webhook tool named `T`. -/
def demoTool : Tool :=
  { name := "T", description := "demo webhook", type := "Webhook", parameters := [],
    webhookUrl := some "https://example.com/hook", method := none, headers := [],
    runAfterCall := false }

/-- A provider reply that is a valid tool call naming `T`. -/
def demoToolReply : LLMResult :=
  { text := demoToolCallText, inputTokens := 0, outputTokens := 0 }

/-- A provider reply that is plain text (not a tool call). -/
def demoDoneReply : LLMResult :=
  { text := "Okay, I have saved the details.", inputTokens := 0, outputTokens := 0 }

-- helper lemmas

/-- A reply in which no tool call is detected is returned unchanged. -/
theorem callLLM_plain_reply (hasPool : Bool) (tools : List Tool)
    (parse : String → Option Json) (ts : Nat) (r : LLMResult)
    (rest : List (Option LLMResult)) (hist : List Turn)
    (h : detectToolJson parse r.text = none) :
    callLLM hasPool tools parse ts (some r :: rest) hist =
      { reply := r.text, history := hist, inputTokens := r.inputTokens,
        outputTokens := r.outputTokens, toolExecs := [], followupInputs := [],
        llmAttempts := 1 } := by
  simp [callLLM, h]

/-- A detected tool call with the pool configured and the tool found
executes the tool, appends the status turn, and recurses. -/
theorem callLLM_tool_step (tools : List Tool) (parse : String → Option Json)
    (ts : Nat) (r : LLMResult) (rest : List (Option LLMResult)) (hist : List Turn)
    (p : Json) (tool : Tool)
    (hdet : detectToolJson parse r.text = some p)
    (hfind : findTool tools ((jsGet p "tool").getD Json.null) = some tool) :
    callLLM true tools parse ts (some r :: rest) hist =
      { reply := (callLLM true tools parse ts rest
          (appendToContext hist (toolStatusMessage ((jsGet p "tool").getD Json.null)) "user" ts)).reply
        history := (callLLM true tools parse ts rest
          (appendToContext hist (toolStatusMessage ((jsGet p "tool").getD Json.null)) "user" ts)).history
        inputTokens := r.inputTokens + (callLLM true tools parse ts rest
          (appendToContext hist (toolStatusMessage ((jsGet p "tool").getD Json.null)) "user" ts)).inputTokens
        outputTokens := r.outputTokens + (callLLM true tools parse ts rest
          (appendToContext hist (toolStatusMessage ((jsGet p "tool").getD Json.null)) "user" ts)).outputTokens
        toolExecs := (tool.name, (jsGet p "data").getD Json.null) :: (callLLM true tools parse ts rest
          (appendToContext hist (toolStatusMessage ((jsGet p "tool").getD Json.null)) "user" ts)).toolExecs
        followupInputs := followupPrompt :: (callLLM true tools parse ts rest
          (appendToContext hist (toolStatusMessage ((jsGet p "tool").getD Json.null)) "user" ts)).followupInputs
        llmAttempts := 1 + (callLLM true tools parse ts rest
          (appendToContext hist (toolStatusMessage ((jsGet p "tool").getD Json.null)) "user" ts)).llmAttempts } := by
  simp [callLLM, hdet, hfind]

/-- C8: when the LLM provider call fails, `callLLM` returns the fixed
apology string, with no change to history, counters, or tools. -/
theorem callLLM_provider_failure_returns_apology (hasPool : Bool) (tools : List Tool)
    (parse : String → Option Json) (ts : Nat) (rest : List (Option LLMResult))
    (hist : List Turn) :
    callLLM hasPool tools parse ts (none :: rest) hist =
      { reply := apologyMessage, history := hist, inputTokens := 0, outputTokens := 0,
        toolExecs := [], followupInputs := [], llmAttempts := 1 } := rfl

/-- C10: with no database pool, a detected tool-call reply is returned
verbatim with no tool execution, no appended status turn, and no recursive
follow-up call. -/
theorem callLLM_no_pool_returns_tool_json_verbatim (tools : List Tool)
    (parse : String → Option Json) (ts : Nat) (r : LLMResult)
    (rest : List (Option LLMResult)) (hist : List Turn) (p : Json) (tool : Tool)
    (hdet : detectToolJson parse r.text = some p)
    (hfind : findTool tools ((jsGet p "tool").getD Json.null) = some tool) :
    callLLM false tools parse ts (some r :: rest) hist =
      { reply := r.text, history := hist, inputTokens := r.inputTokens,
        outputTokens := r.outputTokens, toolExecs := [], followupInputs := [],
        llmAttempts := 1 } := by
  simp [callLLM, hdet]

/-- C10 witness. -/
theorem callLLM_no_pool_witness :
    callLLM false [demoTool] demoParse 0 [some demoToolReply] [] =
      { reply := demoToolCallText, history := [], inputTokens := 0, outputTokens := 0,
        toolExecs := [], followupInputs := [], llmAttempts := 1 } :=
  callLLM_no_pool_returns_tool_json_verbatim [demoTool] demoParse 0 demoToolReply [] []
    demoToolCallJson demoTool rfl rfl

/-- C2: a detected tool call naming a configured tool executes it once,
appends one status turn, makes one recursive call, and returns its reply. -/
theorem callLLM_executes_detected_tool_once (tools : List Tool)
    (parse : String → Option Json) (ts : Nat) (r1 r2 : LLMResult)
    (rest : List (Option LLMResult)) (hist : List Turn) (p : Json)
    (kvs : List (String × Json)) (X : String)
    (hstart : strStartsWithChar (cleanLLMText r1.text) lbrace = true)
    (hend : strEndsWithChar (cleanLLMText r1.text) rbrace = true)
    (hparse : parse (cleanLLMText r1.text) = some p)
    (htool : jsGet p "tool" = some (Json.str X))
    (hX : X ≠ "")
    (hdata : jsGet p "data" = some (Json.obj kvs))
    (hmem : ∃ t ∈ tools, t.name = X)
    (hr2 : detectToolJson parse r2.text = none) :
    callLLM true tools parse ts (some r1 :: some r2 :: rest) hist =
      { reply := r2.text
        history := appendToContext hist (toolStatusMessage (Json.str X)) "user" ts
        inputTokens := r1.inputTokens + r2.inputTokens
        outputTokens := r1.outputTokens + r2.outputTokens
        toolExecs := [(X, Json.obj kvs)]
        followupInputs := [followupPrompt]
        llmAttempts := 2 } := by
  have hdet : detectToolJson parse r1.text = some p := by
    simp [detectToolJson, hstart, hend, hparse, htool, hdata, jsTruthyOpt, jsTruthy, hX]
  have hsome : (findTool tools (Json.str X)).isSome := by
    obtain ⟨t, ht, hname⟩ := hmem
    unfold findTool
    rw [List.find?_isSome]
    exact ⟨t, ht, by simp [hname]⟩
  obtain ⟨tool, hfind⟩ := Option.isSome_iff_exists.mp hsome
  have hname : tool.name = X := by
    have := List.find?_some hfind
    simpa using this
  have hfind' : findTool tools ((jsGet p "tool").getD Json.null) = some tool := by
    rw [htool]; exact hfind
  rw [callLLM_tool_step tools parse ts r1 (some r2 :: rest) hist p tool hdet hfind']
  rw [htool]
  simp only [Option.getD_some]
  rw [callLLM_plain_reply true tools parse ts r2 rest _ hr2]
  simp [hname, hdata]

/-- C2 witness. -/
theorem callLLM_tool_call_witness :
    callLLM true [demoTool] demoParse 0 [some demoToolReply, some demoDoneReply] [] =
      { reply := "Okay, I have saved the details."
        history := appendToContext [] (toolStatusMessage (Json.str "T")) "user" 0
        inputTokens := 0
        outputTokens := 0
        toolExecs := [("T", Json.obj [])]
        followupInputs := [followupPrompt]
        llmAttempts := 2 } := by
  have h := callLLM_executes_detected_tool_once [demoTool] demoParse 0 demoToolReply
    demoDoneReply [] [] demoToolCallJson [] "T" rfl rfl rfl rfl (by decide) rfl
    ⟨demoTool, by simp, rfl⟩ rfl
  simpa using h

/-- C1 (code bug): the tool-call recursion has no iteration cap.  For every
`n`, an oracle of `n` consecutive valid tool-call replies naming the
configured tool `T` followed by one plain reply makes `n + 1` provider
calls, executes the tool `n` times, and returns the plain reply — never a
fallback message, contradicting the required cap (e.g. 5). -/
theorem callLLM_tool_loop_unbounded (n ts : Nat) (hist : List Turn) :
    (callLLM true [demoTool] demoParse ts
        (List.replicate n (some demoToolReply) ++ [some demoDoneReply]) hist).toolExecs.length = n ∧
    (callLLM true [demoTool] demoParse ts
        (List.replicate n (some demoToolReply) ++ [some demoDoneReply]) hist).llmAttempts = n + 1 ∧
    (callLLM true [demoTool] demoParse ts
        (List.replicate n (some demoToolReply) ++ [some demoDoneReply]) hist).reply =
      "Okay, I have saved the details." := by
  induction n generalizing hist with
  | zero =>
    refine ⟨?_, ?_, ?_⟩ <;> rfl
  | succ k ih =>
    have hdet : detectToolJson demoParse demoToolReply.text = some demoToolCallJson := rfl
    have hfind : findTool [demoTool]
        ((jsGet demoToolCallJson "tool").getD Json.null) = some demoTool := rfl
    rw [List.replicate_succ, List.cons_append]
    rw [callLLM_tool_step [demoTool] demoParse ts demoToolReply _ hist
      demoToolCallJson demoTool hdet hfind]
    obtain ⟨ih1, ih2, ih3⟩ := ih (appendToContext hist
      (toolStatusMessage ((jsGet demoToolCallJson "tool").getD Json.null)) "user" ts)
    refine ⟨by simp [ih1], by simp [ih2]; omega, by simp [ih3]⟩

/-- C3: every append leaves at most 20 entries, and the result is exactly
the last-20 suffix of the old history with the new turn appended — FIFO
eviction of the oldest entries, order preserved. -/
theorem appendToContext_sliding_window (hist : List Turn) (content role : String) (ts : Nat) :
    (appendToContext hist content role ts).length ≤ 20 ∧
    appendToContext hist content role ts =
      (hist ++ [Turn.mk role content ts]).drop (hist.length + 1 - 20) := by
  unfold appendToContext
  by_cases h : (hist ++ [Turn.mk role content ts]).length > 20
  · rw [if_pos h]
    constructor
    · rw [List.length_drop]
      omega
    · simp [List.length_append]
  · rw [if_neg h]
    simp only [List.length_append, List.length_cons, List.length_nil] at h
    have h0 : hist.length + 1 - 20 = 0 := by omega
    rw [h0, List.drop_zero]
    constructor
    · simp only [List.length_append, List.length_cons, List.length_nil]
      omega
    · rfl

/-- Explicit byte-list form of the WAV container: 44 header bytes then the
PCM data. -/
theorem createWavHeader_bytes (pcm : List Nat) :
    createWavHeader pcm =
      82 :: 73 :: 70 :: 70 ::
      ((36 + pcm.length) % 256) :: ((36 + pcm.length) / 256 % 256) ::
      ((36 + pcm.length) / 65536 % 256) :: ((36 + pcm.length) / 16777216 % 256) ::
      87 :: 65 :: 86 :: 69 ::
      102 :: 109 :: 116 :: 32 ::
      16 :: 0 :: 0 :: 0 ::
      1 :: 0 :: 1 :: 0 ::
      128 :: 62 :: 0 :: 0 ::
      0 :: 125 :: 0 :: 0 ::
      2 :: 0 :: 16 :: 0 ::
      100 :: 97 :: 116 :: 97 ::
      (pcm.length % 256) :: (pcm.length / 256 % 256) ::
      (pcm.length / 65536 % 256) :: (pcm.length / 16777216 % 256) ::
      pcm := rfl

/-- The container is 44 bytes longer than the PCM payload. -/
theorem createWavHeader_length (pcm : List Nat) :
    (createWavHeader pcm).length = 44 + pcm.length := by
  rw [createWavHeader_bytes]
  simp only [List.length_cons]
  omega

/-- Bytes 0-3 are the ASCII chunk id `RIFF`. -/
theorem createWavHeader_riff (pcm : List Nat) :
    (createWavHeader pcm).take 4 = asciiBytes "RIFF" := by
  rw [createWavHeader_bytes]
  rfl

/-- Bytes 8-11 are the ASCII format id `WAVE`. -/
theorem createWavHeader_wave (pcm : List Nat) :
    ((createWavHeader pcm).drop 8).take 4 = asciiBytes "WAVE" := by
  rw [createWavHeader_bytes]
  rfl

/-- The little-endian uint32 at offset 4 is `36 + N`. -/
theorem createWavHeader_totalSize (pcm : List Nat) (h : 36 + pcm.length < 4294967296) :
    readU32LE (createWavHeader pcm) 4 = 36 + pcm.length := by
  rw [createWavHeader_bytes]
  show (36 + pcm.length) % 256 + 256 * ((36 + pcm.length) / 256 % 256) +
    65536 * ((36 + pcm.length) / 65536 % 256) +
    16777216 * ((36 + pcm.length) / 16777216 % 256) = 36 + pcm.length
  omega

/-- The little-endian uint32 at offset 40 is the PCM byte count. -/
theorem createWavHeader_dataSize (pcm : List Nat) (h : 36 + pcm.length < 4294967296) :
    readU32LE (createWavHeader pcm) 40 = pcm.length := by
  rw [createWavHeader_bytes]
  show pcm.length % 256 + 256 * (pcm.length / 256 % 256) +
    65536 * (pcm.length / 65536 % 256) +
    16777216 * (pcm.length / 16777216 % 256) = pcm.length
  omega

/-- The format-chunk size field at offset 16 is 16. -/
theorem createWavHeader_fmtSize (pcm : List Nat) :
    readU32LE (createWavHeader pcm) 16 = 16 := by
  rw [createWavHeader_bytes]
  show (16 : Nat) + 256 * 0 + 65536 * 0 + 16777216 * 0 = 16
  norm_num

/-- The format-code field at offset 20 is 1 (uncompressed PCM). -/
theorem createWavHeader_audioFormat (pcm : List Nat) :
    readU16LE (createWavHeader pcm) 20 = 1 := by
  rw [createWavHeader_bytes]
  show (1 : Nat) + 256 * 0 = 1
  norm_num

/-- The channel-count field at offset 22 is 1. -/
theorem createWavHeader_channels (pcm : List Nat) :
    readU16LE (createWavHeader pcm) 22 = 1 := by
  rw [createWavHeader_bytes]
  show (1 : Nat) + 256 * 0 = 1
  norm_num

/-- The sample-rate field at offset 24 is 16000. -/
theorem createWavHeader_sampleRate (pcm : List Nat) :
    readU32LE (createWavHeader pcm) 24 = 16000 := by
  rw [createWavHeader_bytes]
  show (128 : Nat) + 256 * 62 + 65536 * 0 + 16777216 * 0 = 16000
  norm_num

/-- The byte-rate field at offset 28 is 32000. -/
theorem createWavHeader_byteRate (pcm : List Nat) :
    readU32LE (createWavHeader pcm) 28 = 32000 := by
  rw [createWavHeader_bytes]
  show (0 : Nat) + 256 * 125 + 65536 * 0 + 16777216 * 0 = 32000
  norm_num

/-- The block-align field at offset 32 is 2. -/
theorem createWavHeader_blockAlign (pcm : List Nat) :
    readU16LE (createWavHeader pcm) 32 = 2 := by
  rw [createWavHeader_bytes]
  show (2 : Nat) + 256 * 0 = 2
  norm_num

/-- The bits-per-sample field at offset 34 is 16. -/
theorem createWavHeader_bits (pcm : List Nat) :
    readU16LE (createWavHeader pcm) 34 = 16 := by
  rw [createWavHeader_bytes]
  show (16 : Nat) + 256 * 0 = 16
  norm_num

/-- The PCM bytes are copied unchanged from offset 44 on. -/
theorem createWavHeader_payload (pcm : List Nat) :
    (createWavHeader pcm).drop 44 = pcm := by
  rw [createWavHeader_bytes]
  rfl

/-- C4: the WAV container layout and field values: length 44 + N, the RIFF
and WAVE ids, total size 36 + N at offset 4, data size N at offset 40,
format chunk size 16, format code 1, one channel, sample rate 16000, byte
rate 32000, block align 2, 16 bits per sample, and the PCM payload copied
unchanged at offset 44 (the size hypothesis reflects the argument range of
`Buffer.writeUInt32LE`). -/
theorem createWavHeader_spec (pcm : List Nat) (h : 36 + pcm.length < 4294967296) :
    (createWavHeader pcm).length = 44 + pcm.length ∧
    (createWavHeader pcm).take 4 = asciiBytes "RIFF" ∧
    ((createWavHeader pcm).drop 8).take 4 = asciiBytes "WAVE" ∧
    readU32LE (createWavHeader pcm) 4 = 36 + pcm.length ∧
    readU32LE (createWavHeader pcm) 40 = pcm.length ∧
    readU32LE (createWavHeader pcm) 16 = 16 ∧
    readU16LE (createWavHeader pcm) 20 = 1 ∧
    readU16LE (createWavHeader pcm) 22 = 1 ∧
    readU32LE (createWavHeader pcm) 24 = 16000 ∧
    readU32LE (createWavHeader pcm) 28 = 32000 ∧
    readU16LE (createWavHeader pcm) 32 = 2 ∧
    readU16LE (createWavHeader pcm) 34 = 16 ∧
    (createWavHeader pcm).drop 44 = pcm :=
  ⟨createWavHeader_length pcm, createWavHeader_riff pcm, createWavHeader_wave pcm,
    createWavHeader_totalSize pcm h, createWavHeader_dataSize pcm h,
    createWavHeader_fmtSize pcm, createWavHeader_audioFormat pcm,
    createWavHeader_channels pcm, createWavHeader_sampleRate pcm,
    createWavHeader_byteRate pcm, createWavHeader_blockAlign pcm,
    createWavHeader_bits pcm, createWavHeader_payload pcm⟩

/-- C4 witness at a three-byte PCM input. -/
theorem createWavHeader_spec_witness :
    (createWavHeader [7, 8, 9]).length = 44 + [7, 8, 9].length ∧
    readU32LE (createWavHeader [7, 8, 9]) 4 = 36 + [7, 8, 9].length ∧
    readU32LE (createWavHeader [7, 8, 9]) 40 = [7, 8, 9].length ∧
    (createWavHeader [7, 8, 9]).drop 44 = [7, 8, 9] := by
  have h := createWavHeader_spec [7, 8, 9] (by decide)
  exact ⟨h.1, h.2.2.2.1, h.2.2.2.2.1, h.2.2.2.2.2.2.2.2.2.2.2.2⟩

/-- C9: a non-empty buffered utterance totalling under 3200 bytes is
discarded — no transcription dispatch (hence no downstream dialog turn) —
while the audio buffer and the silence-timer reference are still cleared. -/
theorem processBufferedAudio_short_utterance_discarded (st : AudioState)
    (hne : st.audioBuffer ≠ [])
    (hshort : st.audioBuffer.flatten.length < 3200) :
    processBufferedAudio st = ({ audioBuffer := [], silenceTimerSet := false }, none) := by
  unfold processBufferedAudio
  rw [if_neg (by simpa [List.length_eq_zero] using hne), if_pos hshort]

/-- C9 witness: one 100-byte chunk. -/
theorem processBufferedAudio_short_witness :
    processBufferedAudio shortAudioState =
      ({ audioBuffer := [], silenceTimerSet := false }, none) :=
  processBufferedAudio_short_utterance_discarded shortAudioState (by decide) (by decide)

/-- Inserting a header whose key differs from `k` does not change the
`find?` for key `k`. -/
theorem find_header_insert_ne (acc : List (String × String)) (kv : String × String)
    (k : String) (h : (kv.1 == k) = false) :
    List.find? (fun e => e.1 == k) (insertHeader acc kv) =
      List.find? (fun e => e.1 == k) acc := by
  induction acc with
  | nil => simp [insertHeader, List.find?, h]
  | cons e rest ih =>
    cases he : (e.1 == kv.1) with
    | false =>
      cases hpe : (e.1 == k) with
      | false => simp [insertHeader, he, List.find?, hpe, ih]
      | true => simp [insertHeader, he, List.find?, hpe]
    | true =>
      have he' : e.1 = kv.1 := by simpa using he
      have hek : (e.1 == k) = false := by rw [he']; exact h
      simp [insertHeader, he, List.find?, hek]

/-- Looking up a key untouched by an insertion is unchanged. -/
theorem lookupHeader_insert_ne (acc : List (String × String)) (kv : String × String)
    (k : String) (h : (kv.1 == k) = false) :
    lookupHeader (insertHeader acc kv) k = lookupHeader acc k := by
  unfold lookupHeader
  rw [find_header_insert_ne acc kv k h]

/-- Folding tool headers whose keys never equal `k` leaves the lookup of
`k` unchanged. -/
theorem lookupHeader_foldl_of_ne (hs : List (String × String))
    (k : String) (h : ∀ kv ∈ hs, kv.1 ≠ k) (acc : List (String × String)) :
    lookupHeader (hs.foldl insertHeader acc) k = lookupHeader acc k := by
  induction hs generalizing acc with
  | nil => rfl
  | cons kv rest ih =>
    rw [List.foldl_cons]
    rw [ih (fun e he => h e (List.mem_cons_of_mem kv he))]
    exact lookupHeader_insert_ne acc kv k
      (by simpa using h kv (List.mem_cons_self kv rest))

/-- C5 (amended): for a webhook tool with a present, non-empty URL, the
issued request uses the configured method with `POST` as the default
(JavaScript `tool.method || 'POST'`), headers that merge a JSON
content-type (kept unless a tool header overrides that key) with the
tool's configured headers, and a body equal to the JSON encoding of the
data exactly when the method is `POST` — requests with any other method are
sent without a body. -/
theorem webhookRequest_method_headers_body (tool : Tool) (data : Json) (u : String)
    (hu : tool.webhookUrl = some u) (hne : u ≠ "") :
    webhookRequest tool data =
      some { url := u
             method := jsMethod tool.method
             headers := buildWebhookHeaders tool.headers
             body := if jsMethod tool.method = "POST" then some (stringify data) else none } ∧
    (jsMethod tool.method = "POST" ↔
      (tool.method = none ∨ tool.method = some "" ∨ tool.method = some "POST")) ∧
    ((∀ kv ∈ tool.headers, kv.1 ≠ "Content-Type") →
      lookupHeader (buildWebhookHeaders tool.headers) "Content-Type" =
        some "application/json") ∧
    (∀ req, webhookRequest tool data = some req →
      (req.body = some (stringify data) ↔ req.method = "POST")) := by
  have hreq : webhookRequest tool data =
      some { url := u
             method := jsMethod tool.method
             headers := buildWebhookHeaders tool.headers
             body := if jsMethod tool.method = "POST" then some (stringify data) else none } := by
    simp [webhookRequest, hu, hne]
  refine ⟨hreq, ?_, ?_, ?_⟩
  · match hm : tool.method with
    | none => simp [jsMethod]
    | some m =>
      by_cases hms : m = ""
      · simp [jsMethod, hms]
      · simp only [jsMethod, if_neg hms]
        constructor
        · intro h; exact Or.inr (Or.inr (by rw [h]))
        · intro h
          rcases h with h | h | h
          · exact absurd h (by simp)
          · exact absurd (Option.some.injEq .. ▸ h) (by simpa using hms)
          · simpa using h
  · intro hnone
    rw [buildWebhookHeaders, lookupHeader_foldl_of_ne tool.headers "Content-Type" hnone]
    rfl
  · intro req hr
    rw [hreq] at hr
    have := Option.some.inj hr
    subst this
    by_cases hp : jsMethod tool.method = "POST"
    · simp [hp]
    · simp [hp]

/-- C5 counterexample: with configured method `PUT` (a non-GET method) the
issued request carries no body, contradicting the claim that every non-GET
request is sent with the JSON-encoded data. -/
theorem webhookRequest_put_has_no_body :
    (webhookRequest putWebhookTool (Json.obj [])).map (fun r => (r.method, r.body)) =
      some ("PUT", (none : Option String)) ∧
    ("PUT" : String) ≠ "GET" ∧
    (none : Option String) ≠ some (stringify (Json.obj [])) := by
  refine ⟨rfl, by decide, by simp⟩

/-- C5 witness: a tool with no configured method and no configured headers
issues a `POST` with the default JSON content-type header and a body. -/
theorem webhookRequest_method_headers_body_witness :
    webhookRequest demoTool (Json.obj [("a", Json.str "1")]) =
      some { url := "https://example.com/hook"
             method := "POST"
             headers := [("Content-Type", "application/json")]
             body := some (stringify (Json.obj [("a", Json.str "1")])) } :=
  (webhookRequest_method_headers_body demoTool (Json.obj [("a", Json.str "1")])
    "https://example.com/hook" rfl (by decide)).1

/-- A non-null data argument survives the `Object.keys` logging line, so
execution reaches the type dispatch. -/
theorem executeTool_of_ne_null (extractId : String → Option String)
    (sheets : Except Unit Bool) (net : FetchOutcome) (tool : Tool) (data : Json)
    (hd : data ≠ Json.null) :
    executeTool extractId sheets net tool data =
      (if tool.type == "GoogleSheets" then executeGoogleSheetsTool extractId sheets tool
       else if tool.type == "Webhook" then executeWebhookTool net tool data
       else false) := by
  cases data with
  | null => exact absurd rfl hd
  | bool b => rfl
  | num n => rfl
  | str s => rfl
  | arr l => rfl
  | obj kvs => rfl

/-- C6: tool execution is a total boolean operation.  For a webhook tool
with non-null data it returns true exactly when the URL is present and the
endpoint answers with a 2xx status (other statuses and transport failures
yield false); an unrecognized tool type yields false; a Google Sheets tool
with a missing or unresolvable URL yields false. -/
theorem executeTool_result_characterization (extractId : String → Option String)
    (sheets : Except Unit Bool) (net : FetchOutcome) (tool : Tool) (data : Json) :
    (tool.type = "Webhook" → data ≠ Json.null →
      (executeTool extractId sheets net tool data = true ↔
        ((∃ u, tool.webhookUrl = some u ∧ u ≠ "") ∧
          ∃ s, net = FetchOutcome.resp s ∧ 200 ≤ s ∧ s < 300))) ∧
    (tool.type ≠ "GoogleSheets" → tool.type ≠ "Webhook" →
      executeTool extractId sheets net tool data = false) ∧
    (tool.type = "GoogleSheets" →
      (tool.webhookUrl = none ∨ tool.webhookUrl = some "" ∨
        (∀ u, tool.webhookUrl = some u → extractId u = none)) →
      executeTool extractId sheets net tool data = false) := by
  refine ⟨?_, ?_, ?_⟩
  · intro ht hd
    rw [executeTool_of_ne_null extractId sheets net tool data hd]
    rw [ht]
    simp only [show (("Webhook" : String) == "GoogleSheets") = false from rfl,
      show (("Webhook" : String) == "Webhook") = true from rfl, if_false, if_true]
    unfold executeWebhookTool webhookRequest
    match hu : tool.webhookUrl with
    | none => simp
    | some u =>
      by_cases hue : u = ""
      · simp [hue]
      · simp only [if_neg hue]
        match net with
        | FetchOutcome.netError => simp
        | FetchOutcome.resp s =>
          simp [hue, Bool.and_eq_true, decide_eq_true_eq]
  · intro h1 h2
    cases data with
    | null => rfl
    | bool b =>
      simp [executeTool, show ∀ x, (tool.type == x) = false ↔ tool.type ≠ x from
        fun x => by simp, h1, h2]
    | num n =>
      simp [executeTool, h1, h2]
    | str s =>
      simp [executeTool, h1, h2]
    | arr l =>
      simp [executeTool, h1, h2]
    | obj kvs =>
      simp [executeTool, h1, h2]
  · intro ht hurl
    cases data with
    | null => rfl
    | bool b =>
      rw [executeTool_of_ne_null extractId sheets net tool (Json.bool b) (by simp)]
      rw [ht]
      simp only [show (("GoogleSheets" : String) == "GoogleSheets") = true from rfl, if_true]
      unfold executeGoogleSheetsTool
      rcases hurl with h | h | h
      · rw [h]
      · rw [h]; simp
      · match hu : tool.webhookUrl with
        | none => rfl
        | some u =>
          by_cases hue : u = ""
          · simp [hue]
          · simp [hue, h u hu]
    | num n =>
      rw [executeTool_of_ne_null extractId sheets net tool (Json.num n) (by simp), ht]
      simp only [show (("GoogleSheets" : String) == "GoogleSheets") = true from rfl, if_true]
      unfold executeGoogleSheetsTool
      rcases hurl with h | h | h
      · rw [h]
      · rw [h]; simp
      · match hu : tool.webhookUrl with
        | none => rfl
        | some u =>
          by_cases hue : u = ""
          · simp [hue]
          · simp [hue, h u hu]
    | str s =>
      rw [executeTool_of_ne_null extractId sheets net tool (Json.str s) (by simp), ht]
      simp only [show (("GoogleSheets" : String) == "GoogleSheets") = true from rfl, if_true]
      unfold executeGoogleSheetsTool
      rcases hurl with h | h | h
      · rw [h]
      · rw [h]; simp
      · match hu : tool.webhookUrl with
        | none => rfl
        | some u =>
          by_cases hue : u = ""
          · simp [hue]
          · simp [hue, h u hu]
    | arr l =>
      rw [executeTool_of_ne_null extractId sheets net tool (Json.arr l) (by simp), ht]
      simp only [show (("GoogleSheets" : String) == "GoogleSheets") = true from rfl, if_true]
      unfold executeGoogleSheetsTool
      rcases hurl with h | h | h
      · rw [h]
      · rw [h]; simp
      · match hu : tool.webhookUrl with
        | none => rfl
        | some u =>
          by_cases hue : u = ""
          · simp [hue]
          · simp [hue, h u hu]
    | obj kvs =>
      rw [executeTool_of_ne_null extractId sheets net tool (Json.obj kvs) (by simp), ht]
      simp only [show (("GoogleSheets" : String) == "GoogleSheets") = true from rfl, if_true]
      unfold executeGoogleSheetsTool
      rcases hurl with h | h | h
      · rw [h]
      · rw [h]; simp
      · match hu : tool.webhookUrl with
        | none => rfl
        | some u =>
          by_cases hue : u = ""
          · simp [hue]
          · simp [hue, h u hu]

/-- C6 witness: a webhook tool against an endpoint answering 200 yields
true. -/
theorem executeTool_result_witness :
    executeTool noSheetsId (Except.ok true) (FetchOutcome.resp 200) demoTool
      (Json.obj []) = true :=
  ((executeTool_result_characterization noSheetsId (Except.ok true)
      (FetchOutcome.resp 200) demoTool (Json.obj [])).1 rfl
    (fun h => Json.noConfusion h)).mpr
    ⟨⟨"https://example.com/hook", rfl, by decide⟩, 200, rfl, by decide, by decide⟩

/-- Every entry executed by `processToolsDuringCall` comes from a
during-call tool whose extraction succeeded. -/
theorem mem_processToolsDuringCall (parse : String → Option Json)
    (chatOf : Tool → Except Unit String) (tools : List Tool) (nm : String) (d : Json)
    (hmem : (nm, d) ∈ processToolsDuringCall parse chatOf tools) :
    ∃ t ∈ tools, t.runAfterCall = false ∧ t.name = nm ∧
      (extractDataFromConversation parse (chatOf t) t).success = true ∧
      (extractDataFromConversation parse (chatOf t) t).data = d := by
  unfold processToolsDuringCall at hmem
  have main : ∀ ts : List Tool,
      (nm, d) ∈ ts.foldr
        (fun t acc =>
          let extraction := extractDataFromConversation parse (chatOf t) t
          if extraction.success then (t.name, extraction.data) :: acc else acc) [] →
      ∃ t ∈ ts, t.name = nm ∧
        (extractDataFromConversation parse (chatOf t) t).success = true ∧
        (extractDataFromConversation parse (chatOf t) t).data = d := by
    intro ts
    induction ts with
    | nil => intro h; exact absurd h (List.not_mem_nil _)
    | cons t rest ih =>
      intro h
      rw [List.foldr_cons] at h
      by_cases hs : (extractDataFromConversation parse (chatOf t) t).success = true
      · simp only [hs, if_true] at h
        rcases List.mem_cons.mp h with h | h
        · obtain ⟨h1, h2⟩ := Prod.mk.injEq .. ▸ h
          exact ⟨t, List.mem_cons_self t rest, h1.symm, hs, h2.symm⟩
        · obtain ⟨t', ht', h1, h2, h3⟩ := ih h
          exact ⟨t', List.mem_cons_of_mem t ht', h1, h2, h3⟩
      · simp only [Bool.not_eq_true] at hs
        simp only [hs, if_false] at h
        obtain ⟨t', ht', h1, h2, h3⟩ := ih h
        exact ⟨t', List.mem_cons_of_mem t ht', h1, h2, h3⟩
  obtain ⟨t, ht, h1, h2, h3⟩ := main (tools.filter (fun t => !t.runAfterCall)) hmem
  have hmf := List.mem_filter.mp ht
  exact ⟨t, hmf.1, by simpa using hmf.2, h1, h2, h3⟩

/-- C7 (amended): given the extraction LLM call succeeds, extraction
reports success exactly when every required parameter's extracted value is
truthy in the JavaScript sense (present and none of null, false, 0, "");
otherwise `missingFields` carries exactly the required parameter names
whose values are not truthy; and only tools whose extraction succeeded are
executed by `processToolsDuringCall`. -/
theorem extractData_success_iff_truthy (parse : String → Option Json)
    (response : String) (tool : Tool) :
    ((extractDataFromConversation parse (Except.ok response) tool).success = true ↔
      ∀ p ∈ tool.parameters, p.required = true →
        jsTruthyOpt (jsGet (extractedDataOf parse response) p.name) = true) ∧
    (extractDataFromConversation parse (Except.ok response) tool).data =
      extractedDataOf parse response ∧
    (extractDataFromConversation parse (Except.ok response) tool).missingFields =
      some (missingRequired tool.parameters (extractedDataOf parse response)) ∧
    (∀ chatOf tools nm d, (nm, d) ∈ processToolsDuringCall parse chatOf tools →
      ∃ t ∈ tools, t.runAfterCall = false ∧ t.name = nm ∧
        (extractDataFromConversation parse (chatOf t) t).success = true ∧
        (extractDataFromConversation parse (chatOf t) t).data = d) := by
  refine ⟨?_, rfl, rfl, fun chatOf tools nm d h =>
    mem_processToolsDuringCall parse chatOf tools nm d h⟩
  show (missingRequired tool.parameters (extractedDataOf parse response)).isEmpty = true ↔ _
  unfold missingRequired
  rw [List.isEmpty_iff, List.map_eq_nil_iff, List.filter_eq_nil_iff]
  constructor
  · intro h p hp hreq
    have hn := h p hp
    rw [hreq] at hn
    simpa using hn
  · intro h p hp
    by_cases hreq : p.required = true
    · have := h p hp hreq
      simp [hreq, this]
    · simp only [Bool.not_eq_true] at hreq
      simp [hreq]

/-- C7 counterexample: the required parameter `a` is extracted as the empty
string — a non-null value — yet the source counts it missing (`!data[p.name]`
is JavaScript truthiness, not a null check) and reports failure. -/
theorem extractData_nonnull_value_counted_missing :
    extractDataFromConversation emptyValueParse (Except.ok emptyValueResponse) collectTool =
      { success := false, data := Json.obj [("a", Json.str "")],
        missingFields := some ["a"] } ∧
    jsGet (Json.obj [("a", Json.str "")]) "a" = some (Json.str "") ∧
    Json.str "" ≠ Json.null := by
  refine ⟨rfl, rfl, fun h => Json.noConfusion h⟩

/-- C7 witness: with the required parameter extracted as a non-empty
string, the extraction succeeds. -/
theorem extractData_success_iff_truthy_witness :
    (extractDataFromConversation filledValueParse (Except.ok filledValueResponse)
      collectTool).success = true :=
  (extractData_success_iff_truthy filledValueParse filledValueResponse collectTool).1.mpr
    (by decide)
